import Mathlib

/-!
Verification development for the google-calendar MCP server.

The definitions below are a shallow embedding of the TypeScript source:

* `src/handlers/core/ListEventsHandler.ts` — multi-calendar list-events
  aggregation (`fetchEvents`, `fetchSingleCalendarEvents`,
  `fetchMultipleCalendarEvents`, `processBatchResponses`,
  `sortEventsByStartTime`, `buildEventsPath`);
* `src/tools/registry.ts` — the `update-event` schema refinements and the
  `list-events` handlerFunction calendar-id array validation;
* `src/handlers/core/FreeBusyEventHandler.ts` — the three-month window check
  and `generateAvailabilitySummary`;
* `src/schemas/validators.ts` — `ListEventsArgumentsSchema` (calendar-id
  union and the timeMin/timeMax cross-field refinement).

JavaScript-specific semantics (string truthiness for `||` and `&&`,
`Date.parse` on the RFC3339 subset admitted by the schemas' regex,
`Array.prototype.sort` with a string comparator) are modelled explicitly.
-/

/-- JS truthiness of an optional string: `undefined` and `""` are falsy. -/
def truthyStr : Option String → Bool
  | some s => s ≠ ""
  | none => false

/-- JS `a || b` for an optional string `a` and a default `b`:
falls through on `undefined` and on the empty string. -/
def jsOrElse (a : Option String) (b : String) : String :=
  match a with
  | some s => if s = "" then b else s
  | none => b

/-- Numeric value of a decimal digit character, `none` for non-digits. -/
def digitVal (c : Char) : Option Nat :=
  if 48 ≤ c.toNat ∧ c.toNat ≤ 57 then some (c.toNat - 48) else none

/-- Parse a list of characters as a decimal number; `none` if any
character is not a digit. -/
def parseNatDigits (cs : List Char) : Option Nat :=
  cs.foldl
    (fun acc c =>
      match acc, digitVal c with
      | some n, some d => some (n * 10 + d)
      | _, _ => none)
    (some 0)

/-- Read exactly `len` digits of `cs` starting at `start` as a number. -/
def sliceNat (cs : List Char) (start len : Nat) : Option Nat :=
  let sub := (cs.drop start).take len
  if sub.length = len then parseNatDigits sub else none

/-- The components of a timestamp in the shape enforced by the schemas'
regex `^\d{4}-\d{2}-\d{2}T\d{2}:\d{2}:\d{2}(Z|[+-]\d{2}:\d{2})$`. -/
structure IsoFields where
  year : Nat
  month : Nat
  day : Nat
  hour : Nat
  minute : Nat
  second : Nat
  offsetSign : Int
  offsetHour : Nat
  offsetMinute : Nat
deriving DecidableEq, Repr

/-- Structural parse of a timestamp string against the schemas' regex
`^\d{4}-\d{2}-\d{2}T\d{2}:\d{2}:\d{2}(Z|[+-]\d{2}:\d{2})$`; returns the
matched components, with no range checking (exactly the regex's job). -/
def parseIsoFields (s : String) : Option IsoFields := do
  let cs := s.data
  let n := cs.length
  if n = 20 ∨ n = 25 then
    let y ← sliceNat cs 0 4
    let dash1 ← cs[4]?
    let mo ← sliceNat cs 5 2
    let dash2 ← cs[7]?
    let d ← sliceNat cs 8 2
    let tSep ← cs[10]?
    let h ← sliceNat cs 11 2
    let colon1 ← cs[13]?
    let mi ← sliceNat cs 14 2
    let colon2 ← cs[16]?
    let sec ← sliceNat cs 17 2
    if dash1 = '-' ∧ dash2 = '-' ∧ tSep = 'T' ∧ colon1 = ':' ∧ colon2 = ':' then
      if n = 20 then
        let z ← cs[19]?
        if z = 'Z' then
          some ⟨y, mo, d, h, mi, sec, 1, 0, 0⟩
        else none
      else
        let sign ← cs[19]?
        let offH ← sliceNat cs 20 2
        let offColon ← cs[22]?
        let offM ← sliceNat cs 23 2
        if offColon = ':' then
          if sign = '+' then some ⟨y, mo, d, h, mi, sec, 1, offH, offM⟩
          else if sign = '-' then some ⟨y, mo, d, h, mi, sec, -1, offH, offM⟩
          else none
        else none
    else none
  else none

/-- Test of the schemas' ISO-datetime-with-timezone regex. -/
def isoDateTimeWithTimezoneTest (s : String) : Bool :=
  (parseIsoFields s).isSome

def isLeapYear (y : Int) : Bool :=
  (y % 4 = 0 ∧ y % 100 ≠ 0) ∨ y % 400 = 0

def daysInMonth (y : Int) (m : Nat) : Nat :=
  if m = 1 ∨ m = 3 ∨ m = 5 ∨ m = 7 ∨ m = 8 ∨ m = 10 ∨ m = 12 then 31
  else if m = 4 ∨ m = 6 ∨ m = 9 ∨ m = 11 then 30
  else if m = 2 then (if isLeapYear y then 29 else 28)
  else 0

/-- Days since 1970-01-01 of the civil date `(y, m, d)` (proleptic
Gregorian), by the standard days-from-civil formula with floor division. -/
def daysFromCivil (y : Int) (m d : Nat) : Int :=
  let yAdj : Int := if m ≤ 2 then y - 1 else y
  let mp : Nat := (m + 9) % 12
  let doy : Int := ((153 * mp + 2) / 5 + d - 1 : Nat)
  365 * yAdj + Int.fdiv yAdj 4 - Int.fdiv yAdj 100 + Int.fdiv yAdj 400 + doy - 719468

/-- JS `new Date(s).getTime()` on strings of the schemas' RFC3339 subset:
epoch milliseconds, or `none` where JS yields an Invalid Date (`NaN`) —
shape mismatch or out-of-range components.  Hour 24 is accepted when
minutes and seconds are zero, per the ECMAScript date-time string format. -/
def jsDateParse (s : String) : Option Int :=
  match parseIsoFields s with
  | none => none
  | some f =>
    if 1 ≤ f.month ∧ f.month ≤ 12 ∧ 1 ≤ f.day ∧ f.day ≤ daysInMonth f.year f.month ∧
       (f.hour ≤ 23 ∨ (f.hour = 24 ∧ f.minute = 0 ∧ f.second = 0)) ∧
       f.minute ≤ 59 ∧ f.second ≤ 59 ∧ f.offsetHour ≤ 23 ∧ f.offsetMinute ≤ 59 then
      some ((daysFromCivil f.year f.month f.day * 86400 +
             f.hour * 3600 + f.minute * 60 + f.second) * 1000 -
            f.offsetSign * (f.offsetHour * 60 + f.offsetMinute) * 60000)
    else none

/-- JS `new Date(a) < new Date(b)`: `false` whenever either side is an
Invalid Date (`NaN` comparisons are false). -/
def jsDateLt (a b : String) : Bool :=
  match jsDateParse a, jsDateParse b with
  | some x, some y => x < y
  | _, _ => false

/-- JS `new Date(a) > now`: `false` when `a` is an Invalid Date. -/
def jsDateGtNow (a : String) (now : Int) : Bool :=
  match jsDateParse a with
  | some x => now < x
  | none => false

/-! ## Event data model (calendar_v3.Schema$Event, restricted to the fields
the handlers read) and the extended event carrying its source calendar. -/

/-- The `start` field of an API event: a date-time or a date-only value. -/
structure EventStart where
  dateTime : Option String
  date : Option String
deriving DecidableEq, Repr

/-- An API event, restricted to the fields the ListEvents handler reads. -/
structure GEvent where
  id : Option String
  summary : Option String
  start : Option EventStart
deriving DecidableEq, Repr

/-- `ExtendedEvent` of ListEventsHandler.ts: an event plus the id of the
calendar it came from (`{...event, calendarId}`). -/
structure ExtendedEvent where
  event : GEvent
  calendarId : String
deriving DecidableEq, Repr

/-- Sub-request of the batch engine: `{ method, path }`. -/
structure BatchRequest where
  method : String
  path : String
deriving DecidableEq, Repr

/-- `body?.error` of a batch sub-response. -/
structure BatchErrorInfo where
  message : Option String
deriving DecidableEq, Repr

/-- Parsed body of a batch sub-response, restricted to the fields
`processBatchResponses` reads. -/
structure BatchResponseBody where
  items : Option (List GEvent)
  error : Option BatchErrorInfo
  message : Option String
deriving DecidableEq, Repr

/-- A batch sub-response: status code and optional parsed body. -/
structure BatchResponse where
  statusCode : Nat
  body : Option BatchResponseBody
deriving DecidableEq, Repr

/-- The success test of `processBatchResponses`:
`response.statusCode === 200 && response.body?.items` (an array, even an
empty one, is truthy in JS; an absent body or absent items is falsy). -/
def batchSuccess (response : BatchResponse) : Bool :=
  response.statusCode == 200 && (response.body.bind BatchResponseBody.items).isSome

/-- The items of a successful batch sub-response. -/
def batchItems (response : BatchResponse) : List GEvent :=
  (response.body.bind BatchResponseBody.items).getD []

/-- The error message extraction of `processBatchResponses`:
`response.body?.error?.message || response.body?.message ||
\x60HTTP ${response.statusCode}\x60` with JS `||` falsiness. -/
def batchErrorMessage (response : BatchResponse) : String :=
  jsOrElse ((response.body.bind BatchResponseBody.error).bind BatchErrorInfo.message)
    (jsOrElse (response.body.bind BatchResponseBody.message)
      ("HTTP " ++ toString response.statusCode))

/-- `processBatchResponses` of ListEventsHandler.ts: walk the responses in
order, pairing the response at index `i` with `calendarIds[i]` (JS yields
`undefined` past the end of the array); a successful response contributes
its items tagged with that calendar id, a failed one contributes a
`(calendarId, errorMessage)` pair.  The JS `forEach` with
`calendarIds[index]` is rendered as simultaneous structural recursion,
`headD`/`tail` being exactly `getD index` on the remaining list. -/
def processBatchResponses :
    List BatchResponse → List String → List ExtendedEvent × List (String × String)
  | [], _ => ([], [])
  | response :: rest, calendarIds =>
    let calendarId := calendarIds.headD "undefined"
    let tailResult := processBatchResponses rest calendarIds.tail
    if batchSuccess response then
      ((batchItems response).map (fun e => ⟨e, calendarId⟩) ++ tailResult.1, tailResult.2)
    else
      (tailResult.1, (calendarId, batchErrorMessage response) :: tailResult.2)

/-- Sort key of `sortEventsByStartTime`:
`a.start?.dateTime || a.start?.date || ""` with JS `||` falsiness. -/
def eventStartKey (e : ExtendedEvent) : String :=
  jsOrElse (e.event.start.bind EventStart.dateTime)
    (jsOrElse (e.event.start.bind EventStart.date) "")

/-- `sortEventsByStartTime` of ListEventsHandler.ts: stable sort of the
events by string comparison of their start keys (`localeCompare` on the
RFC3339/date keys produced by the API coincides with lexicographic string
order; JS `Array.prototype.sort` is stable). -/
def sortEventsByStartTime (events : List ExtendedEvent) : List ExtendedEvent :=
  events.mergeSort (fun a b => decide (eventStartKey a ≤ eventStartKey b))

/-! ## URL construction (`buildEventsPath`). -/

/-- Uppercase hexadecimal digit. -/
def hexDigit (n : Nat) : Char :=
  if n < 10 then Char.ofNat (48 + n) else Char.ofNat (55 + n)

/-- `URLSearchParams.toString()` encoding of one string
(application/x-www-form-urlencoded): ASCII alphanumerics and `*-._` kept,
space becomes `+`, every other UTF-8 byte percent-encoded. -/
def formUrlEncode (s : String) : String :=
  String.mk <| s.toUTF8.toList.flatMap fun b =>
    let n := b.toNat
    if (48 ≤ n ∧ n ≤ 57) ∨ (65 ≤ n ∧ n ≤ 90) ∨ (97 ≤ n ∧ n ≤ 122) ∨
       n = 42 ∨ n = 45 ∨ n = 46 ∨ n = 95 then [Char.ofNat n]
    else if n = 32 then [Char.ofNat 43]
    else [Char.ofNat 37, hexDigit (n / 16), hexDigit (n % 16)]

/-- JS `encodeURIComponent`: unreserved characters
(alphanumerics and `-_.!~*()` and the apostrophe, byte 39) kept, every
other UTF-8 byte percent-encoded. -/
def encodeURIComponent (s : String) : String :=
  String.mk <| s.toUTF8.toList.flatMap fun b =>
    let n := b.toNat
    if (48 ≤ n ∧ n ≤ 57) ∨ (65 ≤ n ∧ n ≤ 90) ∨ (97 ≤ n ∧ n ≤ 122) ∨
       n = 45 ∨ n = 95 ∨ n = 46 ∨ n = 33 ∨ n = 126 ∨ n = 42 ∨ n = 39 ∨
       n = 40 ∨ n = 41 then [Char.ofNat n]
    else [Char.ofNat 37, hexDigit (n / 16), hexDigit (n % 16)]

/-- Time-range options threaded through the fetch functions. -/
structure ListOptions where
  timeMin : Option String
  timeMax : Option String
deriving DecidableEq, Repr

/-- `buildEventsPath` of ListEventsHandler.ts: `URLSearchParams` over
`singleEvents`, `orderBy` and the provided boundaries (the
`...(options.timeMin && {...})` spreads drop absent and empty strings),
query appended to the per-calendar events path. -/
def buildEventsPath (calendarId : String) (options : ListOptions) : String :=
  let params : List (String × String) :=
    [("singleEvents", "true"), ("orderBy", "startTime")] ++
    (if truthyStr options.timeMin then [("timeMin", options.timeMin.getD "")] else []) ++
    (if truthyStr options.timeMax then [("timeMax", options.timeMax.getD "")] else [])
  let query := String.intercalate "&"
    (params.map fun p => formUrlEncode p.1 ++ "=" ++ formUrlEncode p.2)
  "/calendar/v3/calendars/" ++ encodeURIComponent calendarId ++ "/events?" ++ query

/-! ## The fetch paths of ListEventsHandler, instrumented with the number
of `executeBatch` invocations performed. -/

/-- The external calendar API as the handler sees it: the single-calendar
`calendar.events.list` items and the batch engine's `executeBatch`. -/
structure CalendarApi where
  eventsList : String → ListOptions → List GEvent
  executeBatch : List BatchRequest → List BatchResponse

/-- `fetchSingleCalendarEvents`: direct `calendar.events.list` call, each
returned item tagged with the calendar id. -/
def fetchSingleCalendarEvents (api : CalendarApi) (calendarId : String)
    (options : ListOptions) : List ExtendedEvent :=
  (api.eventsList calendarId options).map fun e => ⟨e, calendarId⟩

/-- `fetchMultipleCalendarEvents`: one sub-request per calendar, a single
`executeBatch` call, demultiplexing via `processBatchResponses`, errors
surfaced as warnings alongside the sorted events.  Third component: the
number of `executeBatch` invocations (always 1 on this path). -/
def fetchMultipleCalendarEvents (api : CalendarApi) (calendarIds : List String)
    (options : ListOptions) :
    List ExtendedEvent × List (String × String) × Nat :=
  let requests := calendarIds.map fun calendarId =>
    BatchRequest.mk "GET" (buildEventsPath calendarId options)
  let responses := api.executeBatch requests
  let processed := processBatchResponses responses calendarIds
  (sortEventsByStartTime processed.1, processed.2, 1)

/-- `fetchEvents`: strategy selection — exactly one calendar takes the
direct single-call path (no batch engine, count 0), anything else the
batch path. -/
def fetchEvents (api : CalendarApi) (calendarIds : List String)
    (options : ListOptions) :
    List ExtendedEvent × List (String × String) × Nat :=
  if calendarIds.length = 1 then
    (fetchSingleCalendarEvents api (calendarIds.headD "") options, [], 0)
  else
    fetchMultipleCalendarEvents api calendarIds options

/-! ## registry.ts list-events handlerFunction: calendar-id array
validation (the branch for an already-parsed array, lines 268-281). -/

/-- The array validation of the list-events `handlerFunction`: non-empty,
at most 50, all non-empty strings, no duplicates — each failure thrown
before the handler (and hence before any network call) runs. -/
def validateCalendarIdArray (ids : List String) : Except String (List String) :=
  if ids.length = 0 then
    .error "At least one calendar ID is required"
  else if ids.length > 50 then
    .error "Maximum 50 calendars allowed per request"
  else if ¬ (ids.all fun id => decide (0 < id.length)) then
    .error "All calendar IDs must be non-empty strings"
  else if ¬ ids.Nodup then
    .error "Duplicate calendar IDs are not allowed"
  else
    .ok ids

/-- The calendar-id array branch of `ListEventsArgumentsSchema`
(schemas/validators.ts): entries non-empty, between 1 and 50 of them,
pairwise distinct. -/
def calendarIdArraySchemaValid (ids : List String) : Bool :=
  (ids.all fun id => decide (0 < id.length)) &&
    decide (1 ≤ ids.length) && decide (ids.length ≤ 50) && decide ids.Nodup

/-- The list-events pipeline for an array of calendar ids: the
handlerFunction validation, then the handler's fetch.  Second component:
number of `executeBatch` invocations (0 when validation fails — no
network call of any kind is made on that branch). -/
def listEventsPipeline (api : CalendarApi) (ids : List String)
    (options : ListOptions) :
    Except String (List ExtendedEvent × List (String × String)) × Nat :=
  match validateCalendarIdArray ids with
  | .error e => (.error e, 0)
  | .ok validIds =>
    let r := fetchEvents api validIds options
    (.ok (r.1, r.2.1), r.2.2)

/-! ## registry.ts update-event schema refinements (ToolSchemas, lines
128-166): three chained `.refine` steps running in order, the first
failure aborting validation. -/

/-- `modificationScope` enum of the update-event schema. -/
inductive ModificationScope
  | thisAndFollowing
  | all
  | thisEventOnly
deriving DecidableEq, Repr

/-- The update-event arguments after structural parsing, restricted to
the scalar fields (attendees/reminders/recurrence never reach the
refinements). -/
structure UpdateEventArgs where
  calendarId : String
  eventId : String
  summary : Option String
  description : Option String
  start : Option String
  «end» : Option String
  timeZone : String
  location : Option String
  colorId : Option String
  sendUpdates : String
  modificationScope : Option ModificationScope
  originalStartTime : Option String
  futureStartDate : Option String
deriving DecidableEq, Repr

/-- The three `.refine` steps of `ToolSchemas[\x27update-event\x27]`, in
source order, each with its message; zod chained refinements
short-circuit, so the first failing step's message is reported.
Step 1: `thisEventOnly` requires a (truthy) `originalStartTime`.
Step 2: `thisAndFollowing` requires a (truthy) `futureStartDate`.
Step 3: a provided `futureStartDate` must parse to an instant strictly
after the current time (`new Date(futureStartDate) > now`; an Invalid
Date compares false and therefore fails). -/
def validateUpdateEvent (now : Int) (data : UpdateEventArgs) :
    Except String UpdateEventArgs :=
  if data.modificationScope = some .thisEventOnly ∧ ¬ truthyStr data.originalStartTime then
    .error "originalStartTime is required when modificationScope is \x27thisEventOnly\x27"
  else if data.modificationScope = some .thisAndFollowing ∧ ¬ truthyStr data.futureStartDate then
    .error "futureStartDate is required when modificationScope is \x27thisAndFollowing\x27"
  else if truthyStr data.futureStartDate ∧
      ¬ jsDateGtNow (data.futureStartDate.getD "") now then
    .error "futureStartDate must be in the future"
  else
    .ok data

/-! ## FreeBusyEventHandler.ts. -/

/-- A busy interval of the free/busy response. -/
structure BusyTime where
  start : String
  «end» : String
deriving DecidableEq, Repr

/-- A per-calendar error marker of the free/busy response. -/
structure FreeBusyError where
  reason : String
deriving DecidableEq, Repr

/-- Per-calendar entry of the free/busy response. -/
structure FreeBusyCalendarInfo where
  errors : Option (List FreeBusyError)
  busy : List BusyTime
deriving DecidableEq, Repr

/-- The free/busy response: echoed window boundaries and the calendars
map (`Object.entries` iterates in insertion order, modelled as an
association list). -/
structure FreeBusyResponse where
  timeMin : String
  timeMax : String
  calendars : List (String × FreeBusyCalendarInfo)
deriving DecidableEq, Repr

/-- The notFound test of `generateAvailabilitySummary`:
`calendarInfo.errors?.some(error => error.reason === "notFound")`
(absent `errors` is falsy). -/
def hasNotFoundError (calendarInfo : FreeBusyCalendarInfo) : Bool :=
  (calendarInfo.errors.getD []).any fun e => e.reason == "notFound"

/-- The per-entry rendering lambda of `generateAvailabilitySummary`:
a notFound marker renders the account-not-found line; an empty busy list
renders the available line; otherwise the busy intervals are listed. -/
def availabilityEntry (response : FreeBusyResponse) (email : String)
    (calendarInfo : FreeBusyCalendarInfo) : String :=
  if hasNotFoundError calendarInfo then
    "Cannot check availability for " ++ email ++ " (account not found)\n"
  else if calendarInfo.busy.length = 0 then
    email ++ " is available during " ++ response.timeMin ++ " to " ++
      response.timeMax ++ ", please schedule calendar to " ++ email ++
      " if you want \n"
  else
    let busyTimes := String.intercalate "\n"
      (calendarInfo.busy.map fun slot =>
        "- From " ++ slot.start ++ " to " ++ slot.«end»)
    email ++ " is busy during:\n" ++ busyTimes ++ "\n"

/-- `generateAvailabilitySummary` of FreeBusyEventHandler.ts:
`Object.entries(response.calendars).map(...).join("\n").trim()`. -/
def generateAvailabilitySummary (response : FreeBusyResponse) : String :=
  (String.intercalate "\n"
    (response.calendars.map fun p => availabilityEntry response p.1 p.2)).trim

/-- `isLessThanThreeMonths` of FreeBusyEventHandler.ts: the millisecond
difference of the parsed boundaries is at most `3 * 30 * 24 * 60 * 60 *
1000`; an Invalid Date on either side makes the `diff <= threshold`
comparison false (`NaN` semantics). -/
def isLessThanThreeMonths (timeMin timeMax : String) : Bool :=
  match jsDateParse timeMin, jsDateParse timeMax with
  | some minTime, some maxTime =>
    decide (maxTime - minTime ≤ 3 * 30 * 24 * 60 * 60 * 1000)
  | _, _ => false

/-- The post-validation body of `FreeBusyEventHandler.runTool`: when the
window check fails, the fixed gap message is returned and no free/busy
query is issued; otherwise the query result is summarised.  The Bool
records whether `calendar.freebusy.query` was invoked. -/
def freeBusyRunTool (queryResult : FreeBusyResponse) (timeMin timeMax : String) :
    String × Bool :=
  if ¬ isLessThanThreeMonths timeMin timeMax then
    ("The time gap between timeMin and timeMax must be less than 3 months", false)
  else
    (generateAvailabilitySummary queryResult, true)

/-! ## ListEventsArgumentsSchema (schemas/validators.ts): time boundary
validation — per-field regex checks, then the cross-field refinement
`new Date(timeMin) < new Date(timeMax)` when both are provided. -/

/-- An optional boundary passes the structural layer when absent or
matching the ISO-with-timezone regex. -/
def optionalBoundaryRegexOk : Option String → Bool
  | some t => isoDateTimeWithTimezoneTest t
  | none => true

/-- The time-boundary part of `ListEventsArgumentsSchema`: each provided
boundary must match the ISO-with-timezone regex (zod structural layer),
then the object-level `.refine` requires `new Date(timeMin) <
new Date(timeMax)` whenever both boundaries are (truthy) present. -/
def validateListEventsTimes (timeMin timeMax : Option String) :
    Except String Unit :=
  if ¬ optionalBoundaryRegexOk timeMin then
    .error "Must be ISO format with timezone (e.g., 2024-01-01T00:00:00Z)"
  else if ¬ optionalBoundaryRegexOk timeMax then
    .error "Must be ISO format with timezone (e.g., 2024-01-01T00:00:00Z)"
  else if truthyStr timeMin ∧ truthyStr timeMax ∧
      ¬ jsDateLt (timeMin.getD "") (timeMax.getD "") then
    .error "timeMin must be before timeMax"
  else
    .ok ()

/-! ## Theorems. -/

/-- Characterization of `processBatchResponses` when the response list and
the calendar-id list have equal length (the batch engine's positional
correspondence): the events are exactly the items of each successful
sub-response tagged with the calendar id at the same position, in order,
and the errors are exactly one `(calendarId, message)` pair per failed
sub-response, in order. -/
theorem processBatchResponses_eq_zip (responses : List BatchResponse) :
    ∀ calendarIds : List String, responses.length = calendarIds.length →
    processBatchResponses responses calendarIds =
      ((responses.zip calendarIds).flatMap fun p =>
         (if batchSuccess p.1 then batchItems p.1 else []).map fun e => ⟨e, p.2⟩,
       (responses.zip calendarIds).filterMap fun p =>
         if batchSuccess p.1 then none else some (p.2, batchErrorMessage p.1)) := by
  induction responses with
  | nil => intro cids _; simp [processBatchResponses]
  | cons r rest ih =>
    intro cids h
    cases cids with
    | nil => simp at h
    | cons c cs =>
      have h' : rest.length = cs.length := by simpa using h
      by_cases hb : batchSuccess r
      · simp [processBatchResponses, hb, ih cs h']
      · simp [processBatchResponses, hb, ih cs h']

/-- C1: for every ordered list of batch sub-responses (one per requested
calendar, in request order), the aggregator attributes each event
extracted from the sub-response at position `i` to the calendar
identifier at position `i` of the input calendar-id list: the tagged
output is exactly the position-wise zip of sub-responses with calendar
ids, each successful sub-response's items tagged with its own calendar
id. -/
theorem processBatchResponses_attributes_by_position
    (responses : List BatchResponse) (calendarIds : List String)
    (h : responses.length = calendarIds.length) :
    (processBatchResponses responses calendarIds).1 =
      (responses.zip calendarIds).flatMap fun p =>
        (if batchSuccess p.1 then batchItems p.1 else []).map fun e => ⟨e, p.2⟩ := by
  rw [processBatchResponses_eq_zip responses calendarIds h]

/-- Witness for C1 at a concrete two-calendar batch: the first
sub-response's event is tagged `primary`, the second's is tagged
`work@x.com`. -/
theorem processBatchResponses_attributes_by_position_witness :
    ([(⟨200, some ⟨some [⟨some "e1", none, none⟩], none, none⟩⟩ : BatchResponse),
      ⟨200, some ⟨some [⟨some "e2", none, none⟩], none, none⟩⟩].length =
      (["primary", "work@x.com"] : List String).length) ∧
    (processBatchResponses
        [⟨200, some ⟨some [⟨some "e1", none, none⟩], none, none⟩⟩,
         ⟨200, some ⟨some [⟨some "e2", none, none⟩], none, none⟩⟩]
        ["primary", "work@x.com"]).1 =
      ([(⟨200, some ⟨some [⟨some "e1", none, none⟩], none, none⟩⟩ : BatchResponse),
        ⟨200, some ⟨some [⟨some "e2", none, none⟩], none, none⟩⟩].zip
        ["primary", "work@x.com"]).flatMap fun p =>
        (if batchSuccess p.1 then batchItems p.1 else []).map fun e => ⟨e, p.2⟩ :=
  ⟨by decide,
   processBatchResponses_attributes_by_position
     [⟨200, some ⟨some [⟨some "e1", none, none⟩], none, none⟩⟩,
      ⟨200, some ⟨some [⟨some "e2", none, none⟩], none, none⟩⟩]
     ["primary", "work@x.com"] (by decide)⟩

/-- C2: a list-events request naming exactly one calendar takes the
direct single-call path (`calendar.events.list` via
`fetchSingleCalendarEvents`), produces no batch warnings, and performs
zero `executeBatch` invocations — the batch engine is never constructed
or invoked. -/
theorem fetchEvents_single_calendar_no_batch
    (api : CalendarApi) (calendarIds : List String) (options : ListOptions)
    (h : calendarIds.length = 1) :
    fetchEvents api calendarIds options =
      (fetchSingleCalendarEvents api (calendarIds.headD "") options, [], 0) := by
  simp [fetchEvents, h]

/-- Witness for C2 at the one-calendar request `["primary"]` against a
concrete API. -/
theorem fetchEvents_single_calendar_no_batch_witness :
    ((["primary"] : List String).length = 1) ∧
    fetchEvents ⟨fun c _ => [⟨some c, none, none⟩], fun _ => []⟩ ["primary"] ⟨none, none⟩ =
      (fetchSingleCalendarEvents ⟨fun c _ => [⟨some c, none, none⟩], fun _ => []⟩
        (["primary"].headD "") ⟨none, none⟩, [], 0) :=
  ⟨by decide,
   fetchEvents_single_calendar_no_batch
     ⟨fun c _ => [⟨some c, none, none⟩], fun _ => []⟩ ["primary"] ⟨none, none⟩ (by decide)⟩

/-- C5: the merged multi-calendar event sequence is globally sorted by
the string order of each event's start key (`dateTime` if present, else
`date`, else the empty string): every adjacent pair of
`sortEventsByStartTime`'s output is non-decreasing under string
comparison. -/
theorem sortEventsByStartTime_adjacent_sorted (events : List ExtendedEvent) :
    (sortEventsByStartTime events).Chain'
      fun a b => eventStartKey a ≤ eventStartKey b := by
  have htrans : ∀ a b c : ExtendedEvent,
      decide (eventStartKey a ≤ eventStartKey b) = true →
      decide (eventStartKey b ≤ eventStartKey c) = true →
      decide (eventStartKey a ≤ eventStartKey c) = true := by
    intro a b c hab hbc
    simp only [decide_eq_true_eq] at *
    exact le_trans hab hbc
  have htotal : ∀ a b : ExtendedEvent,
      (decide (eventStartKey a ≤ eventStartKey b) ||
       decide (eventStartKey b ≤ eventStartKey a)) = true := by
    intro a b
    simp only [Bool.or_eq_true, decide_eq_true_eq]
    exact le_total _ _
  have hp := @List.sorted_mergeSort ExtendedEvent
    (fun a b => decide (eventStartKey a ≤ eventStartKey b)) htrans htotal events
  have hp' : (events.mergeSort fun a b =>
      decide (eventStartKey a ≤ eventStartKey b)).Pairwise
      fun a b => eventStartKey a ≤ eventStartKey b :=
    hp.imp fun h => of_decide_eq_true h
  exact hp'.chain'

/-- C3: for a valid calendar-id array naming more than one (and at most
50) calendars, the pipeline performs exactly one `executeBatch`
invocation, regardless of how many calendars are named; for an array
naming more than 50 calendars, the handlerFunction validation rejects it
with the 50-calendar message before any call is made (zero `executeBatch`
invocations), and the `ListEventsArgumentsSchema` array branch likewise
rejects it. -/
theorem listEvents_one_batch_call_and_50_limit
    (api : CalendarApi) (ids : List String) (options : ListOptions) :
    (1 < ids.length → ids.length ≤ 50 →
      validateCalendarIdArray ids = .ok ids →
      (listEventsPipeline api ids options).2 = 1) ∧
    (50 < ids.length →
      listEventsPipeline api ids options =
        (.error "Maximum 50 calendars allowed per request", 0) ∧
      calendarIdArraySchemaValid ids = false) := by
  constructor
  · intro h1 _ hok
    have hne : ids.length ≠ 1 := by omega
    simp [listEventsPipeline, hok, fetchEvents, hne, fetchMultipleCalendarEvents]
  · intro h50
    have h0 : ¬ ids.length = 0 := by omega
    have h50' : ids.length > 50 := h50
    constructor
    · simp [listEventsPipeline, validateCalendarIdArray, h0, h50']
    · have : ¬ ids.length ≤ 50 := by omega
      simp [calendarIdArraySchemaValid, this]

/-- Witness for C3: a valid two-calendar request makes exactly one batch
call; a 51-calendar request is rejected with the 50-calendar message and
makes no call. -/
theorem listEvents_one_batch_call_and_50_limit_witness :
    (1 < (["a", "b"] : List String).length) ∧
    ((["a", "b"] : List String).length ≤ 50) ∧
    (listEventsPipeline ⟨fun _ _ => [], fun _ => []⟩ ["a", "b"] ⟨none, none⟩).2 = 1 ∧
    (50 < ((List.range 51).map fun i => toString i).length) ∧
    listEventsPipeline ⟨fun _ _ => [], fun _ => []⟩
        ((List.range 51).map fun i => toString i) ⟨none, none⟩ =
      (.error "Maximum 50 calendars allowed per request", 0) :=
  ⟨by decide, by decide,
   (listEvents_one_batch_call_and_50_limit ⟨fun _ _ => [], fun _ => []⟩
       ["a", "b"] ⟨none, none⟩).1 (by decide) (by decide) rfl,
   by decide,
   ((listEvents_one_batch_call_and_50_limit ⟨fun _ _ => [], fun _ => []⟩
       ((List.range 51).map fun i => toString i) ⟨none, none⟩).2 (by decide)).1⟩

/-- C4: on the multi-calendar path, when the batch responses mix
successes and failures, the call still returns normally: the events are
exactly the (sorted) tagged items of the successful sub-responses, and
each failed sub-response is surfaced as a `(calendarId, errorMessage)`
warning alongside the data rather than aborting the request. -/
theorem fetchMultipleCalendarEvents_partial_failure
    (api : CalendarApi) (calendarIds : List String) (options : ListOptions)
    (responses : List BatchResponse)
    (hresp : api.executeBatch (calendarIds.map fun calendarId =>
        BatchRequest.mk "GET" (buildEventsPath calendarId options)) = responses)
    (hlen : responses.length = calendarIds.length)
    (_hfail : ∃ p ∈ responses.zip calendarIds, batchSuccess p.1 = false)
    (_hsucc : ∃ p ∈ responses.zip calendarIds, batchSuccess p.1 = true) :
    fetchMultipleCalendarEvents api calendarIds options =
      (sortEventsByStartTime
        ((responses.zip calendarIds).flatMap fun p =>
          (if batchSuccess p.1 then batchItems p.1 else []).map fun e => ⟨e, p.2⟩),
       (responses.zip calendarIds).filterMap fun p =>
         if batchSuccess p.1 then none else some (p.2, batchErrorMessage p.1),
       1) := by
  simp [fetchMultipleCalendarEvents, hresp,
    processBatchResponses_eq_zip responses calendarIds hlen]

/-- Witness for C4 at the spec's own scenario: `primary` returns two
events and `work@x.com` a 404 — the call returns the two `primary`
events and a warning for `work@x.com`. -/
theorem fetchMultipleCalendarEvents_partial_failure_witness :
    fetchMultipleCalendarEvents
      ⟨fun _ _ => [],
       fun _ => [⟨200, some ⟨some [⟨some "e1", none, some ⟨some "2024-01-02T10:00:00Z", none⟩⟩,
                                   ⟨some "e2", none, some ⟨some "2024-01-01T10:00:00Z", none⟩⟩],
                            none, none⟩⟩,
                 ⟨404, some ⟨none, some ⟨some "Not Found"⟩, none⟩⟩]⟩
      ["primary", "work@x.com"] ⟨none, none⟩ =
      (sortEventsByStartTime
        ((([(⟨200, some ⟨some [⟨some "e1", none, some ⟨some "2024-01-02T10:00:00Z", none⟩⟩,
                               ⟨some "e2", none, some ⟨some "2024-01-01T10:00:00Z", none⟩⟩],
                        none, none⟩⟩ : BatchResponse),
            ⟨404, some ⟨none, some ⟨some "Not Found"⟩, none⟩⟩]).zip
            ["primary", "work@x.com"]).flatMap fun p =>
          (if batchSuccess p.1 then batchItems p.1 else []).map fun e => ⟨e, p.2⟩),
       (([(⟨200, some ⟨some [⟨some "e1", none, some ⟨some "2024-01-02T10:00:00Z", none⟩⟩,
                             ⟨some "e2", none, some ⟨some "2024-01-01T10:00:00Z", none⟩⟩],
                      none, none⟩⟩ : BatchResponse),
          ⟨404, some ⟨none, some ⟨some "Not Found"⟩, none⟩⟩]).zip
          ["primary", "work@x.com"]).filterMap fun p =>
         if batchSuccess p.1 then none else some (p.2, batchErrorMessage p.1),
       1) :=
  fetchMultipleCalendarEvents_partial_failure
    ⟨fun _ _ => [],
     fun _ => [⟨200, some ⟨some [⟨some "e1", none, some ⟨some "2024-01-02T10:00:00Z", none⟩⟩,
                                 ⟨some "e2", none, some ⟨some "2024-01-01T10:00:00Z", none⟩⟩],
                          none, none⟩⟩,
               ⟨404, some ⟨none, some ⟨some "Not Found"⟩, none⟩⟩]⟩
    ["primary", "work@x.com"] ⟨none, none⟩
    [⟨200, some ⟨some [⟨some "e1", none, some ⟨some "2024-01-02T10:00:00Z", none⟩⟩,
                       ⟨some "e2", none, some ⟨some "2024-01-01T10:00:00Z", none⟩⟩],
                none, none⟩⟩,
     ⟨404, some ⟨none, some ⟨some "Not Found"⟩, none⟩⟩]
    rfl (by decide) (by decide) (by decide)

/-- A string accepted by `jsDateParse` is non-empty. -/
theorem jsDateParse_ne_empty {s : String} {t : Int}
    (h : jsDateParse s = some t) : s ≠ "" := by
  intro he
  rw [he] at h
  have hnone : jsDateParse "" = none := by decide
  rw [hnone] at h
  exact Option.noConfusion h

/-- `jsDateLt` holds exactly when both strings parse and the first
parses strictly earlier. -/
theorem jsDateLt_iff (a b : String) :
    jsDateLt a b = true ↔
      ∃ x y, jsDateParse a = some x ∧ jsDateParse b = some y ∧ x < y := by
  unfold jsDateLt
  cases hpa : jsDateParse a <;> cases hpb : jsDateParse b <;> simp

/-- C6: under `modificationScope = thisAndFollowing` with a parseable
`futureStartDate`, the update-event validation fails with
"futureStartDate must be in the future" exactly when the parsed instant
is less than or equal to the current time, and passes (for any values of
the other arguments) when it is strictly later. -/
theorem updateEvent_futureStartDate_future_check
    (data : UpdateEventArgs) (now t : Int) (s : String)
    (hscope : data.modificationScope = some .thisAndFollowing)
    (hfsd : data.futureStartDate = some s)
    (hparse : jsDateParse s = some t) :
    (t ≤ now →
      validateUpdateEvent now data = .error "futureStartDate must be in the future") ∧
    (now < t → validateUpdateEvent now data = .ok data) := by
  have hs : s ≠ "" := jsDateParse_ne_empty hparse
  constructor
  · intro hle
    have hnlt : ¬ now < t := not_lt.mpr hle
    simp [validateUpdateEvent, hscope, hfsd, truthyStr, hs, jsDateGtNow, hparse, hnlt]
  · intro hlt
    simp [validateUpdateEvent, hscope, hfsd, truthyStr, hs, jsDateGtNow, hparse, hlt]

/-- Witness for C6: the same request is rejected when the current time
has reached `2099-01-01T00:00:00Z` and accepted when the current time is
the epoch. -/
theorem updateEvent_futureStartDate_future_check_witness :
    validateUpdateEvent 4070908800000
        ⟨"cal", "ev", none, none, none, none, "UTC", none, none, "all",
         some .thisAndFollowing, none, some "2099-01-01T00:00:00Z"⟩ =
      .error "futureStartDate must be in the future" ∧
    validateUpdateEvent 0
        ⟨"cal", "ev", none, none, none, none, "UTC", none, none, "all",
         some .thisAndFollowing, none, some "2099-01-01T00:00:00Z"⟩ =
      .ok ⟨"cal", "ev", none, none, none, none, "UTC", none, none, "all",
           some .thisAndFollowing, none, some "2099-01-01T00:00:00Z"⟩ :=
  ⟨(updateEvent_futureStartDate_future_check
      ⟨"cal", "ev", none, none, none, none, "UTC", none, none, "all",
       some .thisAndFollowing, none, some "2099-01-01T00:00:00Z"⟩
      4070908800000 4070908800000 "2099-01-01T00:00:00Z" rfl rfl (by decide)).1
      (le_refl _),
   (updateEvent_futureStartDate_future_check
      ⟨"cal", "ev", none, none, none, none, "UTC", none, none, "all",
       some .thisAndFollowing, none, some "2099-01-01T00:00:00Z"⟩
      0 4070908800000 "2099-01-01T00:00:00Z" rfl rfl (by decide)).2 (by decide)⟩

/-- C7: under `modificationScope = thisEventOnly` with no
`originalStartTime`, the update-event validation fails with the message
naming `originalStartTime`, for any values of the other arguments (the
check is the first refinement, so nothing else is consulted and no
external call is reached). -/
theorem updateEvent_thisEventOnly_requires_originalStartTime
    (data : UpdateEventArgs) (now : Int)
    (hscope : data.modificationScope = some .thisEventOnly)
    (horig : data.originalStartTime = none) :
    validateUpdateEvent now data =
      .error "originalStartTime is required when modificationScope is \x27thisEventOnly\x27" := by
  simp [validateUpdateEvent, hscope, horig, truthyStr]

/-- Witness for C7 at a concrete `thisEventOnly` request with absent
`originalStartTime`. -/
theorem updateEvent_thisEventOnly_requires_originalStartTime_witness :
    validateUpdateEvent 0
        ⟨"cal", "ev", some "title", none, none, none, "UTC", none, none, "all",
         some .thisEventOnly, none, some "2099-01-01T00:00:00Z"⟩ =
      .error "originalStartTime is required when modificationScope is \x27thisEventOnly\x27" :=
  updateEvent_thisEventOnly_requires_originalStartTime
    ⟨"cal", "ev", some "title", none, none, none, "UTC", none, none, "all",
     some .thisEventOnly, none, some "2099-01-01T00:00:00Z"⟩ 0 rfl rfl

/-- C8: the free/busy summary renders every calendar entry independently:
the whole response is the join of the per-entry lines (so a per-calendar
`notFound` never fails the request), an entry carrying a `notFound` error
marker renders the account-not-found line, and every other entry renders
its availability (available or busy-list) line. -/
theorem freeBusy_notFound_per_entry (response : FreeBusyResponse) :
    generateAvailabilitySummary response =
      (String.intercalate "\n"
        (response.calendars.map fun p => availabilityEntry response p.1 p.2)).trim ∧
    ∀ email calendarInfo, (email, calendarInfo) ∈ response.calendars →
      (hasNotFoundError calendarInfo = true →
        availabilityEntry response email calendarInfo =
          "Cannot check availability for " ++ email ++ " (account not found)\n") ∧
      (hasNotFoundError calendarInfo = false →
        availabilityEntry response email calendarInfo =
          (if calendarInfo.busy.length = 0 then
            email ++ " is available during " ++ response.timeMin ++ " to " ++
              response.timeMax ++ ", please schedule calendar to " ++ email ++
              " if you want \n"
          else
            email ++ " is busy during:\n" ++
              String.intercalate "\n" (calendarInfo.busy.map fun slot =>
                "- From " ++ slot.start ++ " to " ++ slot.«end») ++ "\n")) := by
  refine ⟨rfl, ?_⟩
  intro email calendarInfo _mem
  constructor
  · intro h
    simp [availabilityEntry, h]
  · intro h
    by_cases hb : calendarInfo.busy.length = 0
    · simp [availabilityEntry, h, hb]
    · simp [availabilityEntry, h, hb]

/-- Witness for C8: in a response where `a@x.com` carries a `notFound`
marker and `b@x.com` does not, the former's entry is the
account-not-found line. -/
theorem freeBusy_notFound_per_entry_witness :
    (("a@x.com", (⟨some [⟨"notFound"⟩], []⟩ : FreeBusyCalendarInfo)) ∈
      (⟨"tMin", "tMax",
        [("a@x.com", ⟨some [⟨"notFound"⟩], []⟩),
         ("b@x.com", ⟨none, []⟩)]⟩ : FreeBusyResponse).calendars) ∧
    availabilityEntry
        ⟨"tMin", "tMax",
         [("a@x.com", ⟨some [⟨"notFound"⟩], []⟩), ("b@x.com", ⟨none, []⟩)]⟩
        "a@x.com" ⟨some [⟨"notFound"⟩], []⟩ =
      "Cannot check availability for " ++ "a@x.com" ++ " (account not found)\n" :=
  ⟨by decide,
   ((freeBusy_notFound_per_entry
      ⟨"tMin", "tMax",
       [("a@x.com", ⟨some [⟨"notFound"⟩], []⟩), ("b@x.com", ⟨none, []⟩)]⟩).2
      "a@x.com" ⟨some [⟨"notFound"⟩], []⟩ (by decide)).1 (by decide)⟩

/-- C9: with both boundaries parseable, a free/busy request whose window
exceeds `3 * 30 * 24` hours (90 days) returns the fixed gap message and
issues no query; a window of at most 90 days issues the query and
returns its summary.  (This limit appears nowhere in the spec.) -/
theorem freeBusy_90_day_window
    (queryResult : FreeBusyResponse) (timeMin timeMax : String) (a b : Int)
    (hmin : jsDateParse timeMin = some a) (hmax : jsDateParse timeMax = some b) :
    (3 * 30 * 24 * 60 * 60 * 1000 < b - a →
      freeBusyRunTool queryResult timeMin timeMax =
        ("The time gap between timeMin and timeMax must be less than 3 months", false)) ∧
    (b - a ≤ 3 * 30 * 24 * 60 * 60 * 1000 →
      freeBusyRunTool queryResult timeMin timeMax =
        (generateAvailabilitySummary queryResult, true)) := by
  constructor
  · intro h
    have hn : ¬ (b - a ≤ 3 * 30 * 24 * 60 * 60 * 1000) := not_le.mpr h
    simp [freeBusyRunTool, isLessThanThreeMonths, hmin, hmax, hn]
    omega
  · intro h
    simp [freeBusyRunTool, isLessThanThreeMonths, hmin, hmax, h]
    omega

/-- Witness for C9: a five-month window is refused without a query, a
one-month window is queried. -/
theorem freeBusy_90_day_window_witness :
    freeBusyRunTool ⟨"m", "x", []⟩ "2024-01-01T00:00:00Z" "2024-06-01T00:00:00Z" =
      ("The time gap between timeMin and timeMax must be less than 3 months", false) ∧
    freeBusyRunTool ⟨"m", "x", []⟩ "2024-01-01T00:00:00Z" "2024-02-01T00:00:00Z" =
      (generateAvailabilitySummary ⟨"m", "x", []⟩, true) :=
  ⟨(freeBusy_90_day_window ⟨"m", "x", []⟩ "2024-01-01T00:00:00Z" "2024-06-01T00:00:00Z"
      1704067200000 1717200000000 (by decide) (by decide)).1 (by decide),
   (freeBusy_90_day_window ⟨"m", "x", []⟩ "2024-01-01T00:00:00Z" "2024-02-01T00:00:00Z"
      1704067200000 1706745600000 (by decide) (by decide)).2 (by decide)⟩

/-- C10: for regex-valid boundaries, the list-events validation with both
boundaries present succeeds exactly when `timeMin` parses to an instant
strictly earlier than `timeMax`, fails with "timeMin must be before
timeMax" whenever the comparison fails, and requests providing at most
one boundary are not subject to the cross-field check. -/
theorem listEvents_timeMin_before_timeMax
    (timeMin timeMax : String)
    (hmin : isoDateTimeWithTimezoneTest timeMin = true)
    (hmax : isoDateTimeWithTimezoneTest timeMax = true) :
    (validateListEventsTimes (some timeMin) (some timeMax) = .ok () ↔
      ∃ a b, jsDateParse timeMin = some a ∧ jsDateParse timeMax = some b ∧ a < b) ∧
    (jsDateLt timeMin timeMax = false →
      validateListEventsTimes (some timeMin) (some timeMax) =
        .error "timeMin must be before timeMax") ∧
    validateListEventsTimes (some timeMin) none = .ok () ∧
    validateListEventsTimes none (some timeMax) = .ok () ∧
    validateListEventsTimes none none = .ok () := by
  have hne_min : timeMin ≠ "" := by
    intro h
    subst h
    exact absurd hmin (by decide)
  have hne_max : timeMax ≠ "" := by
    intro h
    subst h
    exact absurd hmax (by decide)
  refine ⟨?_, ?_, ?_, ?_, ?_⟩
  · rw [← jsDateLt_iff]
    cases hlt : jsDateLt timeMin timeMax
    · simp [validateListEventsTimes, optionalBoundaryRegexOk, hmin, hmax,
        truthyStr, hne_min, hne_max, hlt]
    · simp [validateListEventsTimes, optionalBoundaryRegexOk, hmin, hmax,
        truthyStr, hne_min, hne_max, hlt]
  · intro hlt
    simp [validateListEventsTimes, optionalBoundaryRegexOk, hmin, hmax,
      truthyStr, hne_min, hne_max, hlt]
  · simp [validateListEventsTimes, optionalBoundaryRegexOk, hmin, truthyStr]
  · simp [validateListEventsTimes, optionalBoundaryRegexOk, hmax, truthyStr]
  · simp [validateListEventsTimes, optionalBoundaryRegexOk, truthyStr]

/-- Witness for C10: in-order boundaries pass, reversed boundaries fail
with the cross-field message, and a single boundary passes. -/
theorem listEvents_timeMin_before_timeMax_witness :
    validateListEventsTimes (some "2024-01-01T00:00:00Z") (some "2024-01-02T00:00:00Z") =
      .ok () ∧
    validateListEventsTimes (some "2024-01-02T00:00:00Z") (some "2024-01-01T00:00:00Z") =
      .error "timeMin must be before timeMax" ∧
    validateListEventsTimes (some "2024-01-02T00:00:00Z") none = .ok () :=
  ⟨(listEvents_timeMin_before_timeMax "2024-01-01T00:00:00Z" "2024-01-02T00:00:00Z"
      (by decide) (by decide)).1.mpr
      ⟨1704067200000, 1704153600000, by decide, by decide, by decide⟩,
   (listEvents_timeMin_before_timeMax "2024-01-02T00:00:00Z" "2024-01-01T00:00:00Z"
      (by decide) (by decide)).2.1 (by decide),
   (listEvents_timeMin_before_timeMax "2024-01-02T00:00:00Z" "2024-01-02T00:00:00Z"
      (by decide) (by decide)).2.2.1⟩
